import Mathlib

/-!
Shallow embedding of the blog-api HTTP server (the latest revision in
`main.go`, the one routing `/article/{id}/{title}/`, `/article/{id}/`,
`/articles/{id}/`, `/articles/{id}/{sort}`).

The bolt database is modelled as an association list from bucket names
(user ids) to buckets, and a bucket as an association list from title keys
to stored values.  A stored value is either the gob encoding of an article
(kept abstract as the article itself, since gob round-trips) or
undecodable bytes, which lets us speak about gob-decode failures.  Bolt
rejects zero-length keys and zero-length bucket names
(`ErrKeyRequired` / `ErrBucketNameRequired`); the model keeps that
behaviour.  Bucket iteration order in bolt is byte-sorted by key; no claim
below depends on the unsorted enumeration order, so the model enumerates
in list order.  `time.Time` timestamps are modelled as naturals, with
`Before`/`After` as `<`/`>`.
-/

namespace BlogApi

/-- An article record as in `main.go`: title, content, and the
server-assigned timestamp. -/
structure Article where
  title : String
  content : String
  timestamp : Nat
deriving DecidableEq, Repr

/-- A value stored in a bucket: gob-encoded article bytes, or bytes on
which gob decode fails. -/
inductive Val where
  | art (a : Article)
  | raw
deriving DecidableEq, Repr

/-- A bolt bucket: association list from title keys to stored values. -/
abbrev Bucket := List (String × Val)

/-- The bolt database: association list from user-id bucket names to
buckets. -/
abbrev Store := List (String × Bucket)

/-- Store-level error outcomes: `errUnknownID`, `errUnknownTitle`, and any
other bolt or gob error (`StorageFailure` in the spec's taxonomy). -/
inductive StoreErr where
  | unknownNamespace
  | unknownKey
  | storageFailure
deriving DecidableEq, Repr

/-- Model of `tx.Bucket(id)`: the bucket named `id`, if present. -/
def txBucket : Store → String → Option Bucket
  | [], _ => none
  | (k, b) :: rest, id => if k == id then some b else txBucket rest id

/-- Model of `b.Get(title)`: the stored bytes under `title`, if present. -/
def bucketGet : Bucket → String → Option Val
  | [], _ => none
  | (k, v) :: rest, title => if k == title then some v else bucketGet rest title

/-- Model of `b.Put(title, v)`: overwrite the entry keyed `title`, or
append a new one. -/
def bucketPut : Bucket → String → Val → Bucket
  | [], title, v => [(title, v)]
  | (k, w) :: rest, title, v =>
      if k == title then (title, v) :: rest else (k, w) :: bucketPut rest title v

/-- Model of `b.Delete(title)`: remove the entry keyed `title`. -/
def bucketDelete : Bucket → String → Bucket
  | [], _ => []
  | (k, w) :: rest, title =>
      if k == title then bucketDelete rest title else (k, w) :: bucketDelete rest title

/-- Replace the bucket named `id` (used after a write inside an `Update`
transaction), creating it if absent, as `CreateBucketIfNotExists` does. -/
def setBucket : Store → String → Bucket → Store
  | [], id, b => [(id, b)]
  | (k, w) :: rest, id, b =>
      if k == id then (id, b) :: rest else (k, w) :: setBucket rest id b

/-- Model of `tx.DeleteBucket(id)`: remove the bucket named `id`. -/
def txDeleteBucket : Store → String → Store
  | [], _ => []
  | (k, w) :: rest, id =>
      if k == id then txDeleteBucket rest id else (k, w) :: txDeleteBucket rest id

/-- The `db.Update` body of `postArticleHandler`:
`CreateBucketIfNotExists(id)`, gob-encode the article, `b.Put(a.Title, …)`.
Bolt returns `ErrBucketNameRequired` for an empty bucket name and
`ErrKeyRequired` for an empty key; both surface as a generic store error. -/
def putArticleTx (st : Store) (id : String) (a : Article) : Except StoreErr Store :=
  if id == "" then .error .storageFailure
  else if a.title == "" then .error .storageFailure
  else
    let b := (txBucket st id).getD []
    .ok (setBucket st id (bucketPut b a.title (.art a)))

/-- The `db.View` body of `getArticleHandler`: missing bucket ⇒
`errUnknownID`; `b.Get` returning nil ⇒ `errUnknownTitle`; otherwise gob
decode (which fails on bytes that are not an encoded article). -/
def getArticleTx (st : Store) (id title : String) : Except StoreErr Article :=
  match txBucket st id with
  | none => .error .unknownNamespace
  | some b =>
      match bucketGet b title with
      | none => .error .unknownKey
      | some (.art a) => .ok a
      | some .raw => .error .storageFailure

/-- The `db.Update` body of `deleteArticleHandler`: missing bucket ⇒
`errUnknownID`; `b.Get` returning nil ⇒ `errUnknownTitle`; otherwise
`b.Delete(title)`.  Check and delete run in the same transaction, so the
model applies them to one snapshot. -/
def deleteArticleTx (st : Store) (id title : String) : Except StoreErr Store :=
  match txBucket st id with
  | none => .error .unknownNamespace
  | some b =>
      match bucketGet b title with
      | none => .error .unknownKey
      | some _ => .ok (setBucket st id (bucketDelete b title))

/-- Gob-decode every value of a bucket in enumeration order, as the
`b.ForEach` loop of `getArticlesHandler` does; the first failing decode
aborts the transaction. -/
def decodeAll : Bucket → Except StoreErr (List Article)
  | [] => .ok []
  | (_, .raw) :: _ => .error .storageFailure
  | (_, .art a) :: rest => (decodeAll rest).map (fun l => a :: l)

/-- The `db.View` body of `getArticlesHandler`: missing bucket ⇒
`errUnknownID`; otherwise decode every entry. -/
def getArticlesTx (st : Store) (id : String) : Except StoreErr (List Article) :=
  match txBucket st id with
  | none => .error .unknownNamespace
  | some b => decodeAll b

/-- The `db.Update` body of `deleteArticlesHandler`: missing bucket ⇒
`errUnknownID`; otherwise `tx.DeleteBucket(id)`. -/
def deleteArticlesTx (st : Store) (id : String) : Except StoreErr Store :=
  match txBucket st id with
  | none => .error .unknownNamespace
  | some _ => .ok (txDeleteBucket st id)

/-- Whether the character list `n` is an initial segment of `l`. -/
def startsWithChars : List Char → List Char → Bool
  | [], _ => true
  | _ :: _, [] => false
  | a :: as, b :: bs => a == b && startsWithChars as bs

/-- Whether `n` occurs as a contiguous segment of `l`. -/
def hasSegment (n : List Char) : List Char → Bool
  | [] => startsWithChars n []
  | c :: cs => startsWithChars n (c :: cs) || hasSegment n cs

/-- Model of Go `strings.Contains(h, n)`. -/
def containsSubstring (h n : String) : Bool :=
  hasSegment n.data h.data

/-- Timestamp order used by the `"asc"` comparator
`articles[i].Timestamp.Before(articles[j].Timestamp)`: sorting with the
strict `Before` comparator yields a sequence non-decreasing by timestamp,
i.e. sorted for this relation. -/
def tsLe (a b : Article) : Prop := a.timestamp ≤ b.timestamp

/-- Timestamp order used by the `"desc"` comparator
`articles[i].Timestamp.After(articles[j].Timestamp)`: sorting with the
strict `After` comparator yields a sequence non-increasing by timestamp. -/
def tsGe (a b : Article) : Prop := b.timestamp ≤ a.timestamp

instance : DecidableRel tsLe := fun a b => Nat.decLe a.timestamp b.timestamp

instance : DecidableRel tsGe := fun a b => Nat.decLe b.timestamp a.timestamp

instance : IsTotal Article tsLe := ⟨fun a b => Nat.le_total a.timestamp b.timestamp⟩

instance : IsTrans Article tsLe := ⟨fun _ _ _ h1 h2 => Nat.le_trans h1 h2⟩

instance : IsTotal Article tsGe := ⟨fun a b => Nat.le_total b.timestamp a.timestamp⟩

instance : IsTrans Article tsGe := ⟨fun _ _ _ h1 h2 => Nat.le_trans h2 h1⟩

/-- Model of `sort.Slice(articles, Before)`: a permutation of the input
sorted non-decreasing by timestamp (Go's sort guarantees exactly a sorted
permutation; which equal-timestamp order results is unspecified, so the
model picks insertion sort). -/
def sortAsc (l : List Article) : List Article :=
  List.insertionSort tsLe l

/-- Model of `sort.Slice(articles, After)`: a permutation of the input
sorted non-increasing by timestamp. -/
def sortDesc (l : List Article) : List Article :=
  List.insertionSort tsGe l

/-- The body of an HTTP response. -/
inductive RespBody where
  | text (s : String)
  | article (a : Article)
  | articles (l : List Article)
  | empty
deriving DecidableEq, Repr

/-- The Content-Type a handler sets on the response. -/
inductive Fmt where
  | json
  | xml
  | plain
deriving DecidableEq, Repr

/-- An HTTP response: status code, body, Content-Type. -/
structure Response where
  status : Nat
  body : RespBody
  fmt : Fmt
deriving DecidableEq, Repr

/-- Outcome of a read-only handler: the response, plus whether the handler
reached the database (entered `db.View`). -/
structure ReadOut where
  resp : Response
  dbTouched : Bool
deriving DecidableEq, Repr

/-- Outcome of a mutating handler: the response, the resulting store
(unchanged unless the transaction committed), and whether the handler
reached the database (entered `db.Update`). -/
structure WriteOut where
  resp : Response
  st : Store
  dbTouched : Bool
deriving DecidableEq, Repr

/-- `postArticleHandler`: validate `id` and `Content-Type`, decode the JSON
body (`body = none` models a decode error; a decoded body is the article
struct, whose absent fields are zero values), stamp
`a.Timestamp = time.Now()` (the `now` parameter), run `putArticleTx`, and
echo the stamped article as JSON on success. -/
def postArticleHandler (st : Store) (id contentType : String)
    (body : Option Article) (now : Nat) : WriteOut :=
  if id == "" then ⟨⟨400, .text "user ID is missing", .plain⟩, st, false⟩
  else if contentType != "application/json" then
    ⟨⟨400, .text "invalid content-type", .plain⟩, st, false⟩
  else
    match body with
    | none => ⟨⟨400, .text "fail to parse JSON", .plain⟩, st, false⟩
    | some a0 =>
        let a : Article := { a0 with timestamp := now }
        match putArticleTx st id a with
        | .error _ => ⟨⟨500, .text "fail to access DB", .plain⟩, st, true⟩
        | .ok st2 => ⟨⟨200, .article a, .json⟩, st2, true⟩

/-- `getArticleHandler`: validate `id` and `title`, run `getArticleTx`, map
`errUnknownID`/`errUnknownTitle` to 404, other errors to 500, success to a
JSON article. -/
def getArticleHandler (st : Store) (id title : String) : ReadOut :=
  if id == "" then ⟨⟨400, .text "missing ID", .plain⟩, false⟩
  else if title == "" then ⟨⟨400, .text "missing title", .plain⟩, false⟩
  else
    match getArticleTx st id title with
    | .error .unknownNamespace => ⟨⟨404, .text "unknown ID", .plain⟩, true⟩
    | .error .unknownKey => ⟨⟨404, .text "unknown title", .plain⟩, true⟩
    | .error .storageFailure => ⟨⟨500, .text "fail to access DB", .plain⟩, true⟩
    | .ok a => ⟨⟨200, .article a, .json⟩, true⟩

/-- `deleteArticleHandler`: validate `id` and `title`, run
`deleteArticleTx`, map the two not-found errors to 404, other errors to
500; a success writes no body. -/
def deleteArticleHandler (st : Store) (id title : String) : WriteOut :=
  if id == "" then ⟨⟨400, .text "missing ID", .plain⟩, st, false⟩
  else if title == "" then ⟨⟨400, .text "missing title", .plain⟩, st, false⟩
  else
    match deleteArticleTx st id title with
    | .error .unknownNamespace => ⟨⟨404, .text "unknown ID", .plain⟩, st, true⟩
    | .error .unknownKey => ⟨⟨404, .text "unknown title", .plain⟩, st, true⟩
    | .error .storageFailure => ⟨⟨500, .text "fail to access DB", .plain⟩, st, true⟩
    | .ok st2 => ⟨⟨200, .empty, .plain⟩, st2, true⟩

/-- The content-negotiation condition of `getArticlesHandler`:
`asXML && !asJSON`, i.e. the Accept header contains `text/xml` and does not
contain `application/json`. -/
def wantsXML (accept : String) : Bool :=
  containsSubstring accept "text/xml" && !containsSubstring accept "application/json"

/-- Serve the article list: XML exactly when `wantsXML` holds of the Accept
header, else JSON (end of `getArticlesHandler`). -/
def respondArticles (l : List Article) (accept : String) : Response :=
  if wantsXML accept then ⟨200, .articles l, .xml⟩
  else ⟨200, .articles l, .json⟩

/-- `getArticlesHandler`: validate `id`, run `getArticlesTx` (the database
read happens before the sort parameter is examined), then, if the route
carried a `sort` parameter (`sortParam = some order`), sort for `asc` or
`desc` and reject anything else with 400, and finally serve JSON or XML by
content negotiation. -/
def getArticlesHandler (st : Store) (id : String) (sortParam : Option String)
    (accept : String) : ReadOut :=
  if id == "" then ⟨⟨400, .text "missing ID", .plain⟩, false⟩
  else
    match getArticlesTx st id with
    | .error .unknownNamespace => ⟨⟨404, .text "unknown ID", .plain⟩, true⟩
    | .error _ => ⟨⟨500, .text "fail to access DB", .plain⟩, true⟩
    | .ok articles =>
        match sortParam with
        | some order =>
            if order == "asc" then ⟨respondArticles (sortAsc articles) accept, true⟩
            else if order == "desc" then ⟨respondArticles (sortDesc articles) accept, true⟩
            else ⟨⟨400, .text "invalid sort parameter", .plain⟩, true⟩
        | none => ⟨respondArticles articles accept, true⟩

/-- `deleteArticlesHandler`: validate `id`, run `deleteArticlesTx`, map
`errUnknownID` to 404, other errors to 500; a success writes no body. -/
def deleteArticlesHandler (st : Store) (id : String) : WriteOut :=
  if id == "" then ⟨⟨400, .text "missing ID", .plain⟩, st, false⟩
  else
    match deleteArticlesTx st id with
    | .error .unknownNamespace => ⟨⟨404, .text "unknown ID", .plain⟩, st, true⟩
    | .error _ => ⟨⟨500, .text "fail to access DB", .plain⟩, st, true⟩
    | .ok st2 => ⟨⟨200, .empty, .plain⟩, st2, true⟩

/-! Helper lemmas about the association-list store. -/

theorem txBucket_setBucket_self (st : Store) (id : String) (b : Bucket) :
    txBucket (setBucket st id b) id = some b := by
  induction st with
  | nil => simp [setBucket, txBucket]
  | cons p rest ih =>
      obtain ⟨k, w⟩ := p
      by_cases h : k = id
      · subst h; simp [setBucket, txBucket]
      · simp [setBucket, txBucket, h, ih]

theorem txBucket_setBucket_ne (st : Store) (id j : String) (b : Bucket)
    (h : j ≠ id) : txBucket (setBucket st id b) j = txBucket st j := by
  induction st with
  | nil => simp [setBucket, txBucket, Ne.symm h]
  | cons p rest ih =>
      obtain ⟨k, w⟩ := p
      by_cases hk : k = id
      · subst hk
        simp [setBucket, txBucket, Ne.symm h]
      · simp only [setBucket, beq_iff_eq, hk, if_false]
        by_cases hkj : k = j
        · subst hkj; simp [txBucket]
        · simp [txBucket, hkj, ih]

theorem txBucket_txDeleteBucket_self (st : Store) (id : String) :
    txBucket (txDeleteBucket st id) id = none := by
  induction st with
  | nil => simp [txDeleteBucket, txBucket]
  | cons p rest ih =>
      obtain ⟨k, w⟩ := p
      by_cases h : k = id
      · subst h; simp [txDeleteBucket, ih]
      · simp [txDeleteBucket, txBucket, h, ih]

theorem txBucket_txDeleteBucket_ne (st : Store) (id j : String)
    (h : j ≠ id) : txBucket (txDeleteBucket st id) j = txBucket st j := by
  induction st with
  | nil => simp [txDeleteBucket]
  | cons p rest ih =>
      obtain ⟨k, w⟩ := p
      by_cases hk : k = id
      · subst hk
        simp [txDeleteBucket, txBucket, Ne.symm h, ih]
      · simp only [txDeleteBucket, beq_iff_eq, hk, if_false]
        by_cases hkj : k = j
        · subst hkj; simp [txBucket]
        · simp [txBucket, hkj, ih]

theorem bucketGet_bucketPut_self (b : Bucket) (t : String) (v : Val) :
    bucketGet (bucketPut b t v) t = some v := by
  induction b with
  | nil => simp [bucketPut, bucketGet]
  | cons p rest ih =>
      obtain ⟨k, w⟩ := p
      by_cases h : k = t
      · subst h; simp [bucketPut, bucketGet]
      · simp [bucketPut, bucketGet, h, ih]

theorem bucketGet_bucketPut_ne (b : Bucket) (t s : String) (v : Val)
    (h : s ≠ t) : bucketGet (bucketPut b t v) s = bucketGet b s := by
  induction b with
  | nil => simp [bucketPut, bucketGet, Ne.symm h]
  | cons p rest ih =>
      obtain ⟨k, w⟩ := p
      by_cases hk : k = t
      · subst hk
        simp [bucketPut, bucketGet, Ne.symm h]
      · simp only [bucketPut, beq_iff_eq, hk, if_false]
        by_cases hks : k = s
        · subst hks; simp [bucketGet]
        · simp [bucketGet, hks, ih]

theorem length_bucketPut (b : Bucket) (t : String) (v w : Val)
    (h : bucketGet b t = some v) : (bucketPut b t w).length = b.length := by
  induction b with
  | nil => simp [bucketGet] at h
  | cons p rest ih =>
      obtain ⟨k, u⟩ := p
      by_cases hk : k = t
      · subst hk; simp [bucketPut]
      · simp only [bucketGet, beq_iff_eq, hk, if_false] at h
        simp [bucketPut, hk, ih h]

theorem bucketGet_bucketDelete_self (b : Bucket) (t : String) :
    bucketGet (bucketDelete b t) t = none := by
  induction b with
  | nil => simp [bucketDelete, bucketGet]
  | cons p rest ih =>
      obtain ⟨k, w⟩ := p
      by_cases h : k = t
      · subst h; simp [bucketDelete, ih]
      · simp [bucketDelete, bucketGet, h, ih]

theorem bucketGet_bucketDelete_ne (b : Bucket) (t s : String)
    (h : s ≠ t) : bucketGet (bucketDelete b t) s = bucketGet b s := by
  induction b with
  | nil => simp [bucketDelete]
  | cons p rest ih =>
      obtain ⟨k, w⟩ := p
      by_cases hk : k = t
      · subst hk
        simp [bucketDelete, bucketGet, Ne.symm h, ih]
      · simp only [bucketDelete, beq_iff_eq, hk, if_false]
        by_cases hks : k = s
        · subst hks; simp [bucketGet]
        · simp [bucketGet, hks, ih]

theorem respondArticles_parts (l : List Article) (accept : String) :
    (respondArticles l accept).status = 200 ∧
    (respondArticles l accept).body = .articles l := by
  unfold respondArticles
  split <;> simp

/-! Claim theorems. -/

/-- C2: for every non-empty id and title, `Get(id, title)` fails with
`UnknownNamespace` exactly when no namespace exists for `id`, with
`UnknownKey` exactly when the namespace exists but holds no entry for
`title`, and with `StorageFailure` exactly when the stored bytes fail to
deserialize; the handler surfaces the two not-found outcomes as HTTP 404
and the storage failure as 500. -/
theorem c2_get_error_taxonomy (st : Store) (id title : String)
    (hid : id ≠ "") (ht : title ≠ "") :
    (getArticleTx st id title = .error .unknownNamespace ↔ txBucket st id = none)
  ∧ (getArticleTx st id title = .error .unknownKey ↔
      ∃ b, txBucket st id = some b ∧ bucketGet b title = none)
  ∧ (getArticleTx st id title = .error .storageFailure ↔
      ∃ b, txBucket st id = some b ∧ bucketGet b title = some .raw)
  ∧ ((getArticleHandler st id title).resp.status = 404 ↔
      (getArticleTx st id title = .error .unknownNamespace ∨
       getArticleTx st id title = .error .unknownKey))
  ∧ ((getArticleHandler st id title).resp.status = 500 ↔
      getArticleTx st id title = .error .storageFailure) := by
  rcases h1 : txBucket st id with _ | b
  · simp [getArticleTx, getArticleHandler, hid, ht, h1]
  · rcases h2 : bucketGet b title with _ | v
    · simp [getArticleTx, getArticleHandler, hid, ht, h1, h2]
    · cases v with
      | art a => simp [getArticleTx, getArticleHandler, hid, ht, h1, h2]
      | raw => simp [getArticleTx, getArticleHandler, hid, ht, h1, h2]

/-- A concrete store exercising every branch of the Get error taxonomy:
namespace `u` holds decodable bytes under `t` and undecodable bytes under
`r`. -/
def stTaxonomy : Store :=
  [("u", [("t", Val.art ⟨"t", "c", 3⟩), ("r", Val.raw)])]

/-- C2 witness: the taxonomy theorem applied at a concrete store and a key
holding undecodable bytes. -/
theorem c2_witness :
    (getArticleTx stTaxonomy "u" "r" = .error .unknownNamespace ↔
       txBucket stTaxonomy "u" = none)
  ∧ (getArticleTx stTaxonomy "u" "r" = .error .unknownKey ↔
      ∃ b, txBucket stTaxonomy "u" = some b ∧ bucketGet b "r" = none)
  ∧ (getArticleTx stTaxonomy "u" "r" = .error .storageFailure ↔
      ∃ b, txBucket stTaxonomy "u" = some b ∧ bucketGet b "r" = some .raw)
  ∧ ((getArticleHandler stTaxonomy "u" "r").resp.status = 404 ↔
      (getArticleTx stTaxonomy "u" "r" = .error .unknownNamespace ∨
       getArticleTx stTaxonomy "u" "r" = .error .unknownKey))
  ∧ ((getArticleHandler stTaxonomy "u" "r").resp.status = 500 ↔
      getArticleTx stTaxonomy "u" "r" = .error .storageFailure) :=
  c2_get_error_taxonomy stTaxonomy "u" "r" (by decide) (by decide)

/-- C10: the write handler never validates the title.  For every store,
non-empty id, and decoded JSON body — including one whose title is the
empty string — the handler reaches the database write (`dbTouched`) and
never answers with a 400 validation error. -/
theorem c10_no_title_validation (st : Store) (id : String) (a : Article)
    (now : Nat) (hid : id ≠ "") :
    (postArticleHandler st id "application/json" (some a) now).dbTouched = true
  ∧ (postArticleHandler st id "application/json" (some a) now).resp.status ≠ 400 := by
  unfold postArticleHandler
  simp only [beq_iff_eq, hid, if_false, bne_self_eq_false, Bool.false_eq_true]
  rcases h : putArticleTx st id { a with timestamp := now } with e | st2 <;> simp [h]

/-- C10 witness: the no-title-validation theorem applied to a body whose
decoded title is the empty string, on the empty store. -/
theorem c10_witness :
    (postArticleHandler [] "u" "application/json" (some ⟨"", "c", 0⟩) 7).dbTouched = true
  ∧ (postArticleHandler [] "u" "application/json" (some ⟨"", "c", 0⟩) 7).resp.status ≠ 400 :=
  c10_no_title_validation [] "u" ⟨"", "c", 0⟩ 7 (by decide)

/-- C1 counterexample: the write handler accepts a body whose decoded
title is empty (it reaches the store write, see the title-validation
theorem), yet for that accepted body the claimed round trip fails at a
concrete input: the Put response is a 500 plain-text error, not an echo of
a persisted article, and `Get(id, "")` answers 400 rather than returning
the article. -/
theorem c1_counterexample :
    (postArticleHandler [] "u" "application/json" (some ⟨"", "c", 0⟩) 7).resp
      = ⟨500, .text "fail to access DB", .plain⟩
  ∧ (getArticleHandler
        (postArticleHandler [] "u" "application/json" (some ⟨"", "c", 0⟩) 7).st
        "u" "").resp
      = ⟨400, .text "missing title", .plain⟩ := by
  decide

/-- C1 (amended): for every non-empty id and every accepted body whose
title is non-empty, `Put` persists the body stamped with the
server-assigned timestamp `now`, echoes exactly that stamped article with
status 200, and a subsequent `Get(id, a.title)` returns the same stamped
article; the assigned timestamp is ≥ any instant `t0` at or before the
call. -/
theorem c1_put_get_roundtrip (st : Store) (id : String) (a : Article)
    (now t0 : Nat) (hid : id ≠ "") (ht : a.title ≠ "") (hnow : t0 ≤ now) :
    ∃ st2,
      postArticleHandler st id "application/json" (some a) now =
        ⟨⟨200, .article { a with timestamp := now }, .json⟩, st2, true⟩
    ∧ (getArticleHandler st2 id a.title).resp =
        ⟨200, .article { a with timestamp := now }, .json⟩
    ∧ t0 ≤ ({ a with timestamp := now } : Article).timestamp := by
  refine ⟨setBucket st id
      (bucketPut ((txBucket st id).getD []) a.title (.art { a with timestamp := now })),
      ?_, ?_, hnow⟩
  · unfold postArticleHandler putArticleTx
    simp [hid, ht]
  · have hb := txBucket_setBucket_self st id
      (bucketPut ((txBucket st id).getD []) a.title (.art { a with timestamp := now }))
    have hg := bucketGet_bucketPut_self ((txBucket st id).getD []) a.title
      (.art { a with timestamp := now })
    unfold getArticleHandler getArticleTx
    simp [hid, ht, hb, hg]

/-- C1 witness: the amended round trip at a concrete input. -/
theorem c1_witness :
    ∃ st2,
      postArticleHandler [] "u" "application/json" (some ⟨"t", "c", 99⟩) 5 =
        ⟨⟨200, .article ⟨"t", "c", 5⟩, .json⟩, st2, true⟩
    ∧ (getArticleHandler st2 "u" "t").resp = ⟨200, .article ⟨"t", "c", 5⟩, .json⟩
    ∧ 3 ≤ (⟨"t", "c", 5⟩ : Article).timestamp :=
  c1_put_get_roundtrip [] "u" ⟨"t", "c", 99⟩ 5 3 (by decide) (by decide) (by decide)

/-- C3 counterexample: deleting the last article of namespace `u` leaves
the bucket in place with zero articles, and on that state `GetAll` answers
200 with the empty list — not the unknown-user outcome — whereas on a
store where `u` never existed it answers 404.  The two states are
therefore distinguishable by reads, contrary to the claim. -/
theorem c3_counterexample :
    (deleteArticleHandler [("u", [("t", Val.art ⟨"t", "c", 1⟩)])] "u" "t").st
      = [("u", [])]
  ∧ (getArticlesHandler [("u", [])] "u" none "").resp
      = ⟨200, .articles [], .json⟩
  ∧ (getArticlesHandler [] "u" none "").resp
      = ⟨404, .text "unknown ID", .plain⟩ := by
  decide

/-- C3 (amended): a namespace emptied of its articles remains and is
distinguishable from one that never existed: on an existing empty
namespace, `Get` fails with the unknown-title outcome (404 "unknown
title") and `GetAll` succeeds with the empty list; only when the
namespace does not exist do `Get` and `GetAll` fail with the unknown-user
outcome (404 "unknown ID"). -/
theorem c3_empty_namespace_distinguishable (st : Store)
    (id title accept : String) (hid : id ≠ "") (ht : title ≠ "") :
    (txBucket st id = some [] →
       (getArticleHandler st id title).resp = ⟨404, .text "unknown title", .plain⟩
     ∧ (getArticlesHandler st id none accept).resp = respondArticles [] accept)
  ∧ (txBucket st id = none →
       (getArticleHandler st id title).resp = ⟨404, .text "unknown ID", .plain⟩
     ∧ (getArticlesHandler st id none accept).resp = ⟨404, .text "unknown ID", .plain⟩) := by
  constructor
  · intro h
    constructor
    · unfold getArticleHandler getArticleTx
      simp [hid, ht, h, bucketGet]
    · unfold getArticlesHandler getArticlesTx
      simp [hid, h, decodeAll]
  · intro h
    constructor
    · unfold getArticleHandler getArticleTx
      simp [hid, ht, h]
    · unfold getArticlesHandler getArticlesTx
      simp [hid, h]

/-- C3 witness: the amended statement at a concrete emptied namespace and
at a concrete never-written store. -/
theorem c3_witness :
    ((getArticleHandler [("u", [])] "u" "t").resp
        = ⟨404, .text "unknown title", .plain⟩
     ∧ (getArticlesHandler [("u", [])] "u" none "").resp = respondArticles [] "")
  ∧ ((getArticleHandler [] "u" "t").resp = ⟨404, .text "unknown ID", .plain⟩
     ∧ (getArticlesHandler [] "u" none "").resp
         = ⟨404, .text "unknown ID", .plain⟩) :=
  ⟨(c3_empty_namespace_distinguishable [("u", [])] "u" "t" ""
      (by decide) (by decide)).1 (by decide),
   (c3_empty_namespace_distinguishable [] "u" "t" ""
      (by decide) (by decide)).2 (by decide)⟩

/-- C4 counterexample: on the empty store, listing an unknown namespace
with an unrecognized sort value answers 404 "unknown ID" after touching
the database — not the claimed 400 validation error reached without any
storage read — so the outcome does depend on whether the namespace
exists. -/
theorem c4_counterexample :
    getArticlesHandler [] "u" (some "bogus") "" =
      ⟨⟨404, .text "unknown ID", .plain⟩, true⟩ := by
  decide

/-- C4 (amended): the sort value is examined only after the storage read:
when the read of namespace `id` succeeds, an unrecognized sort value is
rejected with 400 "invalid sort parameter" (the database having been
touched), and when the namespace does not exist the same request answers
404 regardless of the sort value. -/
theorem c4_invalid_sort_after_read (st : Store) (id accept order : String)
    (hid : id ≠ "") (hasc : order ≠ "asc") (hdesc : order ≠ "desc") :
    (∀ arts, getArticlesTx st id = .ok arts →
       getArticlesHandler st id (some order) accept =
         ⟨⟨400, .text "invalid sort parameter", .plain⟩, true⟩)
  ∧ (getArticlesTx st id = .error .unknownNamespace →
       getArticlesHandler st id (some order) accept =
         ⟨⟨404, .text "unknown ID", .plain⟩, true⟩) := by
  constructor
  · intro arts h
    unfold getArticlesHandler
    simp [hid, h, hasc, hdesc]
  · intro h
    unfold getArticlesHandler
    simp [hid, h]

/-- C4 witness: the amended statement at a concrete one-article store
(storage read succeeds, then the bad sort value gets 400) and at the empty
store (unknown namespace gets 404 despite the same bad sort value). -/
theorem c4_witness :
    getArticlesHandler [("u", [("t", Val.art ⟨"t", "c", 1⟩)])] "u" (some "zzz") "" =
      ⟨⟨400, .text "invalid sort parameter", .plain⟩, true⟩
  ∧ getArticlesHandler [] "u" (some "zzz") "" =
      ⟨⟨404, .text "unknown ID", .plain⟩, true⟩ :=
  ⟨(c4_invalid_sort_after_read [("u", [("t", Val.art ⟨"t", "c", 1⟩)])] "u" "" "zzz"
      (by decide) (by decide) (by decide)).1 [⟨"t", "c", 1⟩] rfl,
   (c4_invalid_sort_after_read [] "u" "" "zzz"
      (by decide) (by decide) (by decide)).2 rfl⟩

/-- C5: for every existing namespace whose entries all decode (read result
`arts`), listing with `"asc"` answers 200 with a permutation of `arts`
that is non-decreasing by timestamp, and listing with `"desc"` answers 200
with a permutation of `arts` that is non-increasing by timestamp. -/
theorem c5_getall_ordered (st : Store) (id accept : String)
    (arts : List Article) (hid : id ≠ "")
    (hok : getArticlesTx st id = .ok arts) :
    (∃ l, (getArticlesHandler st id (some "asc") accept).resp.status = 200
        ∧ (getArticlesHandler st id (some "asc") accept).resp.body = .articles l
        ∧ List.Sorted tsLe l ∧ l.Perm arts)
  ∧ (∃ l, (getArticlesHandler st id (some "desc") accept).resp.status = 200
        ∧ (getArticlesHandler st id (some "desc") accept).resp.body = .articles l
        ∧ List.Sorted tsGe l ∧ l.Perm arts) := by
  have hasc : (getArticlesHandler st id (some "asc") accept).resp
      = respondArticles (sortAsc arts) accept := by
    unfold getArticlesHandler
    simp [hid, hok]
  have hdesc : (getArticlesHandler st id (some "desc") accept).resp
      = respondArticles (sortDesc arts) accept := by
    unfold getArticlesHandler
    simp [hid, hok]
  constructor
  · exact ⟨sortAsc arts,
      by rw [hasc]; exact (respondArticles_parts _ _).1,
      by rw [hasc]; exact (respondArticles_parts _ _).2,
      List.sorted_insertionSort tsLe arts,
      List.perm_insertionSort tsLe arts⟩
  · exact ⟨sortDesc arts,
      by rw [hdesc]; exact (respondArticles_parts _ _).1,
      by rw [hdesc]; exact (respondArticles_parts _ _).2,
      List.sorted_insertionSort tsGe arts,
      List.perm_insertionSort tsGe arts⟩

/-- A concrete two-article store with out-of-order timestamps, for the
ordering witness. -/
def stSort : Store :=
  [("u", [("a", Val.art ⟨"a", "x", 5⟩), ("b", Val.art ⟨"b", "y", 2⟩)])]

/-- C5 witness: the ordering theorem applied at a concrete store holding
timestamps 5 and 2. -/
theorem c5_witness :
    (∃ l, (getArticlesHandler stSort "u" (some "asc") "").resp.status = 200
        ∧ (getArticlesHandler stSort "u" (some "asc") "").resp.body = .articles l
        ∧ List.Sorted tsLe l ∧ l.Perm [⟨"a", "x", 5⟩, ⟨"b", "y", 2⟩])
  ∧ (∃ l, (getArticlesHandler stSort "u" (some "desc") "").resp.status = 200
        ∧ (getArticlesHandler stSort "u" (some "desc") "").resp.body = .articles l
        ∧ List.Sorted tsGe l ∧ l.Perm [⟨"a", "x", 5⟩, ⟨"b", "y", 2⟩]) :=
  c5_getall_ordered stSort "u" "" [⟨"a", "x", 5⟩, ⟨"b", "y", 2⟩]
    (by decide) rfl

/-- C6: a `Put` whose title already exists in the namespace answers 200
echoing the freshly stamped article, stores exactly that article in place
of the old entry (content overwritten, timestamp refreshed), leaves the
number of entries in the namespace unchanged, and leaves every other title
untouched. -/
theorem c6_overwrite_preserves_count (st : Store) (id : String) (b : Bucket)
    (a : Article) (v : Val) (now : Nat)
    (hid : id ≠ "") (ht : a.title ≠ "")
    (hb : txBucket st id = some b) (hv : bucketGet b a.title = some v) :
    ∃ st2,
      postArticleHandler st id "application/json" (some a) now =
        ⟨⟨200, .article { a with timestamp := now }, .json⟩, st2, true⟩
    ∧ txBucket st2 id =
        some (bucketPut b a.title (.art { a with timestamp := now }))
    ∧ bucketGet (bucketPut b a.title (.art { a with timestamp := now })) a.title
        = some (.art { a with timestamp := now })
    ∧ (bucketPut b a.title (.art { a with timestamp := now })).length = b.length
    ∧ (∀ t, t ≠ a.title →
        bucketGet (bucketPut b a.title (.art { a with timestamp := now })) t
          = bucketGet b t) := by
  refine ⟨setBucket st id (bucketPut b a.title (.art { a with timestamp := now })),
      ?_, ?_, ?_, ?_, ?_⟩
  · unfold postArticleHandler putArticleTx
    simp [hid, ht, hb]
  · exact txBucket_setBucket_self st id _
  · exact bucketGet_bucketPut_self b a.title _
  · exact length_bucketPut b a.title v _ hv
  · intro t h
    exact bucketGet_bucketPut_ne b a.title t _ h

/-- A concrete two-article store for the overwrite witness. -/
def stOver : Store :=
  [("u", [("t", Val.art ⟨"t", "old", 1⟩), ("s", Val.art ⟨"s", "z", 2⟩)])]

/-- C6 witness: overwriting title `t` at a concrete store. -/
theorem c6_witness :
    ∃ st2,
      postArticleHandler stOver "u" "application/json" (some ⟨"t", "new", 0⟩) 9 =
        ⟨⟨200, .article ⟨"t", "new", 9⟩, .json⟩, st2, true⟩
    ∧ txBucket st2 "u" =
        some (bucketPut [("t", Val.art ⟨"t", "old", 1⟩), ("s", Val.art ⟨"s", "z", 2⟩)]
          "t" (.art ⟨"t", "new", 9⟩))
    ∧ bucketGet (bucketPut [("t", Val.art ⟨"t", "old", 1⟩), ("s", Val.art ⟨"s", "z", 2⟩)]
          "t" (.art ⟨"t", "new", 9⟩)) "t" = some (.art ⟨"t", "new", 9⟩)
    ∧ (bucketPut [("t", Val.art ⟨"t", "old", 1⟩), ("s", Val.art ⟨"s", "z", 2⟩)]
          "t" (.art ⟨"t", "new", 9⟩)).length
        = [("t", Val.art ⟨"t", "old", 1⟩), ("s", Val.art ⟨"s", "z", 2⟩)].length
    ∧ (∀ t, t ≠ (⟨"t", "new", 0⟩ : Article).title →
        bucketGet (bucketPut [("t", Val.art ⟨"t", "old", 1⟩), ("s", Val.art ⟨"s", "z", 2⟩)]
          "t" (.art ⟨"t", "new", 9⟩)) t
          = bucketGet [("t", Val.art ⟨"t", "old", 1⟩), ("s", Val.art ⟨"s", "z", 2⟩)] t) :=
  c6_overwrite_preserves_count stOver "u"
    [("t", Val.art ⟨"t", "old", 1⟩), ("s", Val.art ⟨"s", "z", 2⟩)]
    ⟨"t", "new", 0⟩ (Val.art ⟨"t", "old", 1⟩) 9
    (by decide) (by decide) (by decide) (by decide)

/-- C7: `Delete(id, title)` fails with `UnknownNamespace` exactly when
`Get(id, title)` does and with `UnknownKey` exactly when `Get` does, and a
successful delete — the existence check and removal being one transaction
body applied to one snapshot — removes exactly the entry keyed `title`:
the deleted title is gone, every other title of the namespace is
unchanged, and every other namespace is unchanged. -/
theorem c7_delete_exact_frame :
    (∀ st id title,
        (deleteArticleTx st id title = .error .unknownNamespace ↔
           getArticleTx st id title = .error .unknownNamespace)
      ∧ (deleteArticleTx st id title = .error .unknownKey ↔
           getArticleTx st id title = .error .unknownKey))
  ∧ (∀ st id title b st2,
        txBucket st id = some b →
        deleteArticleTx st id title = .ok st2 →
          txBucket st2 id = some (bucketDelete b title)
        ∧ bucketGet (bucketDelete b title) title = none
        ∧ (∀ t, t ≠ title → bucketGet (bucketDelete b title) t = bucketGet b t)
        ∧ (∀ j, j ≠ id → txBucket st2 j = txBucket st j)) := by
  constructor
  · intro st id title
    rcases h1 : txBucket st id with _ | b
    · simp [deleteArticleTx, getArticleTx, h1]
    · rcases h2 : bucketGet b title with _ | v
      · simp [deleteArticleTx, getArticleTx, h1, h2]
      · cases v <;> simp [deleteArticleTx, getArticleTx, h1, h2]
  · intro st id title b st2 hb hdel
    rcases h2 : bucketGet b title with _ | v
    · simp [deleteArticleTx, hb, h2] at hdel
    · simp only [deleteArticleTx, hb, h2, Except.ok.injEq] at hdel
      subst hdel
      exact ⟨txBucket_setBucket_self st id _,
        bucketGet_bucketDelete_self b title,
        fun t ht => bucketGet_bucketDelete_ne b title t ht,
        fun j hj => txBucket_setBucket_ne st id j _ hj⟩

/-- C7 witness: the delete theorem instantiated at a concrete two-article,
two-namespace store. -/
theorem c7_witness :
    ((deleteArticleTx [] "u" "t" = .error .unknownNamespace ↔
        getArticleTx [] "u" "t" = .error .unknownNamespace)
     ∧ (deleteArticleTx [] "u" "t" = .error .unknownKey ↔
        getArticleTx [] "u" "t" = .error .unknownKey))
  ∧ (txBucket (setBucket [("u", [("t", Val.art ⟨"t", "c", 1⟩), ("s", Val.art ⟨"s", "z", 2⟩)]), ("v", [])] "u"
        (bucketDelete [("t", Val.art ⟨"t", "c", 1⟩), ("s", Val.art ⟨"s", "z", 2⟩)] "t")) "u"
      = some (bucketDelete [("t", Val.art ⟨"t", "c", 1⟩), ("s", Val.art ⟨"s", "z", 2⟩)] "t")
    ∧ bucketGet (bucketDelete [("t", Val.art ⟨"t", "c", 1⟩), ("s", Val.art ⟨"s", "z", 2⟩)] "t") "t" = none
    ∧ (∀ t, t ≠ "t" →
        bucketGet (bucketDelete [("t", Val.art ⟨"t", "c", 1⟩), ("s", Val.art ⟨"s", "z", 2⟩)] "t") t
          = bucketGet [("t", Val.art ⟨"t", "c", 1⟩), ("s", Val.art ⟨"s", "z", 2⟩)] t)
    ∧ (∀ j, j ≠ "u" →
        txBucket (setBucket [("u", [("t", Val.art ⟨"t", "c", 1⟩), ("s", Val.art ⟨"s", "z", 2⟩)]), ("v", [])] "u"
          (bucketDelete [("t", Val.art ⟨"t", "c", 1⟩), ("s", Val.art ⟨"s", "z", 2⟩)] "t")) j
          = txBucket [("u", [("t", Val.art ⟨"t", "c", 1⟩), ("s", Val.art ⟨"s", "z", 2⟩)]), ("v", [])] j)) :=
  ⟨c7_delete_exact_frame.1 [] "u" "t",
   c7_delete_exact_frame.2
     [("u", [("t", Val.art ⟨"t", "c", 1⟩), ("s", Val.art ⟨"s", "z", 2⟩)]), ("v", [])]
     "u" "t" [("t", Val.art ⟨"t", "c", 1⟩), ("s", Val.art ⟨"s", "z", 2⟩)]
     (setBucket [("u", [("t", Val.art ⟨"t", "c", 1⟩), ("s", Val.art ⟨"s", "z", 2⟩)]), ("v", [])] "u"
        (bucketDelete [("t", Val.art ⟨"t", "c", 1⟩), ("s", Val.art ⟨"s", "z", 2⟩)] "t"))
     (by decide) rfl⟩

/-- C8: on a store where namespace `id` exists, `DeleteAll(id)` answers
200, the whole namespace is gone from the resulting store, and a
subsequent `GetAll(id)` on the resulting store answers 404 "unknown ID";
on any store where namespace `id` does not exist, `DeleteAll(id)` itself
answers 404 "unknown ID". -/
theorem c8_deleteall_then_getall (st : Store) (id accept : String)
    (b : Bucket) (hid : id ≠ "") (hb : txBucket st id = some b) :
    (deleteArticlesHandler st id).resp = ⟨200, .empty, .plain⟩
  ∧ txBucket (deleteArticlesHandler st id).st id = none
  ∧ (getArticlesHandler (deleteArticlesHandler st id).st id none accept).resp
      = ⟨404, .text "unknown ID", .plain⟩
  ∧ (∀ st2 : Store, txBucket st2 id = none →
      (deleteArticlesHandler st2 id).resp = ⟨404, .text "unknown ID", .plain⟩) := by
  have hst : (deleteArticlesHandler st id).st = txDeleteBucket st id := by
    unfold deleteArticlesHandler deleteArticlesTx
    simp [hid, hb]
  have hnone : txBucket (txDeleteBucket st id) id = none :=
    txBucket_txDeleteBucket_self st id
  refine ⟨?_, ?_, ?_, ?_⟩
  · unfold deleteArticlesHandler deleteArticlesTx
    simp [hid, hb]
  · rw [hst]
    exact hnone
  · rw [hst]
    unfold getArticlesHandler getArticlesTx
    simp [hid, hnone]
  · intro st2 h2
    unfold deleteArticlesHandler deleteArticlesTx
    simp [hid, h2]

/-- C8 witness: delete-all then get-all at a concrete one-article store. -/
theorem c8_witness :
    (deleteArticlesHandler [("u", [("t", Val.art ⟨"t", "c", 1⟩)])] "u").resp
      = ⟨200, .empty, .plain⟩
  ∧ txBucket (deleteArticlesHandler [("u", [("t", Val.art ⟨"t", "c", 1⟩)])] "u").st "u" = none
  ∧ (getArticlesHandler (deleteArticlesHandler [("u", [("t", Val.art ⟨"t", "c", 1⟩)])] "u").st
        "u" none "").resp = ⟨404, .text "unknown ID", .plain⟩
  ∧ (∀ st2 : Store, txBucket st2 "u" = none →
      (deleteArticlesHandler st2 "u").resp = ⟨404, .text "unknown ID", .plain⟩) :=
  c8_deleteall_then_getall [("u", [("t", Val.art ⟨"t", "c", 1⟩)])] "u" ""
    [("t", Val.art ⟨"t", "c", 1⟩)] (by decide) (by decide)

theorem respondArticles_fmt (l : List Article) (accept : String) :
    ((respondArticles l accept).fmt = .xml ↔ wantsXML accept = true)
  ∧ ((respondArticles l accept).fmt = .json ↔ wantsXML accept = false) := by
  unfold respondArticles
  rcases h : wantsXML accept <;> simp [h]

/-- Every 200 answer of the list handler is produced by the
content-negotiating `respondArticles`. -/
theorem getArticlesHandler_success_shape (st : Store) (id accept : String)
    (sp : Option String)
    (h : (getArticlesHandler st id sp accept).resp.status = 200) :
    ∃ l, (getArticlesHandler st id sp accept).resp = respondArticles l accept := by
  by_cases hid : id = ""
  · unfold getArticlesHandler at h
    simp [hid] at h
  · rcases ho : getArticlesTx st id with e | arts
    · unfold getArticlesHandler at h
      rcases e <;> simp [hid, ho] at h
    · rcases sp with _ | order
      · exact ⟨arts, by unfold getArticlesHandler; simp [hid, ho]⟩
      · by_cases ha : order = "asc"
        · exact ⟨sortAsc arts, by unfold getArticlesHandler; simp [hid, ho, ha]⟩
        · by_cases hd : order = "desc"
          · exact ⟨sortDesc arts, by unfold getArticlesHandler; simp [hid, ho, ha, hd]⟩
          · unfold getArticlesHandler at h
            simp [hid, ho, ha, hd] at h

/-- C9: whenever the list endpoint succeeds, its body is XML exactly when
the Accept header contains `text/xml` and does not contain
`application/json`, and JSON in every other case; successful
single-article reads and writes, by contrast, always answer JSON
regardless of the Accept header. -/
theorem c9_content_negotiation (st : Store) (id title accept ct : String)
    (sp : Option String) (body : Option Article) (now : Nat) :
    ((getArticlesHandler st id sp accept).resp.status = 200 →
        ((getArticlesHandler st id sp accept).resp.fmt = .xml ↔
           wantsXML accept = true)
      ∧ ((getArticlesHandler st id sp accept).resp.fmt = .json ↔
           wantsXML accept = false))
  ∧ ((getArticleHandler st id title).resp.status = 200 →
      (getArticleHandler st id title).resp.fmt = .json)
  ∧ ((postArticleHandler st id ct body now).resp.status = 200 →
      (postArticleHandler st id ct body now).resp.fmt = .json) := by
  refine ⟨?_, ?_, ?_⟩
  · intro h
    obtain ⟨l, hl⟩ := getArticlesHandler_success_shape st id accept sp h
    rw [hl]
    exact respondArticles_fmt l accept
  · unfold getArticleHandler
    by_cases hid : id = ""
    · simp [hid]
    · by_cases ht : title = ""
      · simp [hid, ht]
      · rcases hg : getArticleTx st id title with e | a
        · rcases e <;> simp [hid, ht, hg]
        · simp [hid, ht, hg]
  · unfold postArticleHandler
    by_cases hid : id = ""
    · simp [hid]
    · by_cases hct : ct = "application/json"
      · rcases body with _ | a
        · simp [hid, hct]
        · rcases hp : putArticleTx st id { a with timestamp := now } with e | st2 <;>
            simp [hid, hct, hp]
      · simp [hid, hct]

/-- C9 witness: negotiation at a concrete store, with every status-200
premise discharged: the list answer under `Accept: text/xml` is XML, while
the single-article read and the write answer JSON under the same
header. -/
theorem c9_witness :
    (((getArticlesHandler stSort "u" (some "asc") "text/xml").resp.fmt = .xml ↔
        wantsXML "text/xml" = true)
     ∧ ((getArticlesHandler stSort "u" (some "asc") "text/xml").resp.fmt = .json ↔
        wantsXML "text/xml" = false))
  ∧ (getArticleHandler stSort "u" "a").resp.fmt = .json
  ∧ (postArticleHandler stSort "u" "application/json" (some ⟨"a", "w", 0⟩) 3).resp.fmt = .json :=
  ⟨(c9_content_negotiation stSort "u" "a" "text/xml" "application/json"
      (some "asc") (some ⟨"a", "w", 0⟩) 3).1 (by decide),
   (c9_content_negotiation stSort "u" "a" "text/xml" "application/json"
      (some "asc") (some ⟨"a", "w", 0⟩) 3).2.1 (by decide),
   (c9_content_negotiation stSort "u" "a" "text/xml" "application/json"
      (some "asc") (some ⟨"a", "w", 0⟩) 3).2.2 (by decide)⟩

end BlogApi
